import Mathlib

/-!
Verification of the expo-router guard demo repository.

The file shallowly embeds the meaningful client logic of the repository:
  * `Layout`   — the route-guard evaluator of `src/app/_layout.tsx`
    (`AppLayout`): given the auth state `(user, loading)` it decides which
    screens the router stack exposes.
  * `Supabase` — the Supabase auth hook `src/hooks/useAuth.ts` together with
    the role utilities of `src/unnamed/part_009` (Supabase `userRoles.ts`).
  * `Firebase` — the Firebase auth hook (second half of
    `src/hooks/useAuth.ts` bundle) and `src/utils/userRoles.ts`.
  * `Convex`   — the Convex variant: the AsyncStorage-backed client hook of
    `src/unnamed/part_001` (`setUser` / `clearUser` / `loadUser`), the server
    functions of `src/convex/auth.ts` (`signUp` / `signIn` /
    `getCurrentUser`), and the client `handleAuth` flow of
    `src/app/(auth)/index.tsx`.

Modelling conventions:
  * Asynchronous JS functions that catch their own exceptions become total
    Lean functions; a thrown-and-caught storage error is injected through an
    explicit `StorageEnv` fault environment (a flag per key saying whether
    the corresponding AsyncStorage operation throws).  JS control flow is
    preserved exactly: statements after a throwing `await` do not execute.
  * AsyncStorage and Firestore are key-value stores, modelled as functions
    from keys to optional values.
  * `JSON.stringify` / `JSON.parse` round-tripping of the plain string-field
    record `AuthUser` is the identity in JS, so serialization is modelled by
    storing the record itself (`StValue.vUser`); a non-record string stored
    under the user key models a value `JSON.parse` rejects.
-/

namespace Layout

/-- The user value produced by the demo `useAuth` hook in
`src/app/_layout.tsx`: `{ name: string; role: string }` (or `null`). -/
structure LayoutUser where
  name : String
  role : String
deriving DecidableEq

/-- The screens registered by `AppLayout` in `src/app/_layout.tsx`. -/
inductive Screen where
  | adminScreen
  | appIndex
  | authIndex
  | about
  | suspense
deriving DecidableEq

/-- Guard of the admin group: `user !== null && user.role === "admin"`. -/
def guardAdmin (user : Option LayoutUser) : Bool :=
  match user with
  | some u => u.role == "admin"
  | none => false

/-- Guard of the standard-user group: `user !== null && user.role !== "admin"`. -/
def guardUser (user : Option LayoutUser) : Bool :=
  match user with
  | some u => u.role != "admin"
  | none => false

/-- Guard of the auth group: `user === null`. -/
def guardAuth (user : Option LayoutUser) : Bool :=
  user.isNone

/-- `AppLayout` of `src/app/_layout.tsx`: when `loading` it renders only
`ScreenSuspense`; otherwise the stack containing each guarded screen whose
guard holds, plus the unguarded About screen. -/
def AppLayout (user : Option LayoutUser) (loading : Bool) : List Screen :=
  if loading then [Screen.suspense]
  else
    (if guardAdmin user then [Screen.adminScreen] else []) ++
    (if guardUser user then [Screen.appIndex] else []) ++
    (if guardAuth user then [Screen.authIndex] else []) ++
    [Screen.about]

end Layout

namespace Supabase

/-- The outcome of the Supabase
`from("profiles").select("role").eq("id", userId).single()` query in
`src/unnamed/part_009` (`getUserRole`): either `error` is set (remote failure,
or `.single()` finding no row), or `data` with an optional `role` field. -/
inductive SingleResult where
  | err
  | ok (roleField : Option String)
deriving DecidableEq

/-- `getUserRole` of `src/unnamed/part_009`: on query error return `"user"`;
otherwise `(data?.role as UserRole) || "user"` — a missing or falsy (empty)
role field also defaults to `"user"`. -/
def getUserRole (res : SingleResult) : String :=
  match res with
  | .err => "user"
  | .ok roleField =>
    match roleField with
    | none => "user"
    | some r => if r = "" then "user" else r

/-- The Supabase auth user, as consumed by `fetchUserWithRole` in
`src/hooks/useAuth.ts` (`id` plus optional `email`). -/
structure SupabaseUser where
  id : String
  email : Option String
deriving DecidableEq

/-- The extended user of `src/hooks/useAuth.ts` (`User`), including the role
from the profiles table. -/
structure User where
  id : String
  email : Option String
  role : String
deriving DecidableEq

/-- A Supabase session as seen by the auth-state callback: `session?.user`.
The role store is a function from user id to query outcome. -/
structure Session where
  user : Option SupabaseUser
deriving DecidableEq

/-- `fetchUserWithRole` of `src/hooks/useAuth.ts`: looks up the role via
`getUserRole` and composes the extended `User`. -/
def fetchUserWithRole (store : String → SingleResult) (supabaseUser : SupabaseUser) : User :=
  { id := supabaseUser.id
    email := supabaseUser.email
    role := getUserRole (store supabaseUser.id) }

/-- The `onAuthStateChange` callback body of `src/hooks/useAuth.ts`
(lines 80–89): if `session?.user` is present, set the fetched user with role;
otherwise set `null`.  `prev` is the user state before the callback. -/
def onSessionChange (store : String → SingleResult) (session : Option Session)
    (prev : Option User) : Option User :=
  match session.bind Session.user with
  | some su => some (fetchUserWithRole store su)
  | none => none

end Supabase

namespace Firebase

/-- The outcome of the Firestore `getDoc(doc(db, "users", userId))` call in
`src/utils/userRoles.ts`: a thrown error, a non-existent document, or a
document whose data has an optional `role` field. -/
inductive DocResult where
  | err
  | missing
  | found (roleField : Option String)
deriving DecidableEq

/-- `getUserRole` of `src/utils/userRoles.ts`: if the document exists return
`userDoc.data()?.role || "user"` (missing or falsy role defaults to
`"user"`); if it does not exist, or the read throws, return `"user"`. -/
def getUserRole (res : DocResult) : String :=
  match res with
  | .err => "user"
  | .missing => "user"
  | .found roleField =>
    match roleField with
    | none => "user"
    | some r => if r = "" then "user" else r

/-- A Firebase auth user as seen by the `onAuthStateChanged` callback. -/
structure FirebaseUser where
  uid : String
  email : Option String
deriving DecidableEq

/-- `AuthUser` of the Firebase `useAuth` hook. -/
structure AuthUser where
  id : String
  email : Option String
  role : String
deriving DecidableEq

/-- The `(user, loading)` state of the Firebase `useAuth` hook. -/
structure HookState where
  user : Option AuthUser
  loading : Bool
deriving DecidableEq

/-- The user-profile document written by `createUserProfile` of
`src/utils/userRoles.ts` (the `createdAt`/`updatedAt` timestamps are
environment-supplied and not read by any modelled operation, so they are
omitted). -/
structure UserProfileDoc where
  id : String
  email : String
  role : String
deriving DecidableEq

/-- The Firestore `users` collection: document id to document. -/
abbrev Firestore : Type := String → Option UserProfileDoc

/-- A successful `getDoc` against the modelled collection: `missing` when no
document exists, otherwise the document's `role` field. -/
def fsGetDoc (fs : Firestore) (userId : String) : DocResult :=
  match fs userId with
  | some d => .found (some d.role)
  | none => .missing

/-- `createUserProfile` of `src/utils/userRoles.ts`: `setDoc` of a fresh
profile document with the given role (default `"user"`). -/
def createUserProfile (fs : Firestore) (userId email : String)
    (role : String := "user") : Firestore :=
  fun k => if k = userId then some ⟨userId, email, role⟩ else fs k

/-- The `onAuthStateChanged` callback body of the Firebase `useAuth` hook:
when a user is present, fetch the role and set the composed `AuthUser`;
otherwise set `null`; either way set `loading` to false. -/
def onAuthStateChanged (store : String → DocResult) (firebaseUser : Option FirebaseUser)
    (prev : HookState) : HookState :=
  match firebaseUser with
  | some fu =>
    { user := some { id := fu.uid, email := fu.email, role := getUserRole (store fu.uid) }
      loading := false }
  | none => { user := none, loading := false }

end Firebase

namespace Convex

/-- `UserRole` of the Convex variant: the schema
(`src/convex/schema.ts`) constrains `role` to the union of the literals
`"user"` and `"admin"`. -/
inductive UserRole where
  | user
  | admin
deriving DecidableEq

/-- `AuthUser` of `src/unnamed/part_001` (the Convex `useAuth` hook):
`{ id, email, role, tokenIdentifier }`. -/
structure AuthUser where
  id : String
  email : String
  role : UserRole
  tokenIdentifier : String
deriving DecidableEq

/-- A value held in AsyncStorage: either a raw string (the token entry) or a
serialized `AuthUser` record (the user entry; `JSON.parse ∘ JSON.stringify`
is the identity on this plain record, so serialization is the identity
embedding). -/
inductive StValue where
  | vStr (s : String)
  | vUser (u : AuthUser)
deriving DecidableEq

/-- AsyncStorage contents: key to optional stored value. -/
abbrev Storage : Type := String → Option StValue

/-- `USER_STORAGE_KEY` of `src/unnamed/part_001`. -/
def USER_STORAGE_KEY : String := "@convex_user"

/-- `TOKEN_STORAGE_KEY` of `src/unnamed/part_001`. -/
def TOKEN_STORAGE_KEY : String := "@convex_token"

/-- `AsyncStorage.getItem`. -/
def getItem (st : Storage) (k : String) : Option StValue :=
  st k

/-- `AsyncStorage.setItem`. -/
def setItem (st : Storage) (k : String) (v : StValue) : Storage :=
  fun q => if q = k then some v else st q

/-- `AsyncStorage.removeItem`. -/
def removeItem (st : Storage) (k : String) : Storage :=
  fun q => if q = k then none else st q

/-- Fault environment for AsyncStorage: per key, whether the corresponding
operation throws.  A throwing operation performs no write. -/
structure StorageEnv where
  setFails : String → Bool
  removeFails : String → Bool
  getFails : String → Bool

/-- The observable state of the Convex `useAuth` hook plus the device
storage it persists to. -/
structure HookState where
  user : Option AuthUser
  loading : Bool
  storage : Storage

/-- `setUser` of `src/unnamed/part_001` (lines 82–90): inside one `try`,
write the serialized user under `USER_STORAGE_KEY`, write the token under
`TOKEN_STORAGE_KEY`, then update the in-memory user.  If either `setItem`
throws, the error is caught and logged and the remaining statements —
including `setUserState(userData)` — do not run. -/
def setUser (env : StorageEnv) (s : HookState) (userData : AuthUser) : HookState :=
  if env.setFails USER_STORAGE_KEY then s
  else
    let st1 := setItem s.storage USER_STORAGE_KEY (StValue.vUser userData)
    if env.setFails TOKEN_STORAGE_KEY then { s with storage := st1 }
    else
      { s with
        storage := setItem st1 TOKEN_STORAGE_KEY (StValue.vStr userData.tokenIdentifier)
        user := some userData }

/-- `clearUser` of `src/unnamed/part_001` (lines 96–104): inside one `try`,
remove both storage entries, then reset the in-memory user to `null`.  If
either `removeItem` throws, the error is caught and logged and the remaining
statements — including `setUserState(null)` — do not run. -/
def clearUser (env : StorageEnv) (s : HookState) : HookState :=
  if env.removeFails USER_STORAGE_KEY then s
  else
    let st1 := removeItem s.storage USER_STORAGE_KEY
    if env.removeFails TOKEN_STORAGE_KEY then { s with storage := st1 }
    else
      { s with storage := removeItem st1 TOKEN_STORAGE_KEY, user := none }

/-- The stored value a successful `JSON.parse` of the user entry yields: a
serialized record parses back to the record; a raw non-JSON string throws
(modelled as `none`, caught by the surrounding `try`). -/
def parseStoredUser (v : StValue) : Option AuthUser :=
  match v with
  | .vUser u => some u
  | .vStr _ => none

/-- `loadUser` of `src/unnamed/part_001` (lines 120–138), run once on mount:
read the user entry; if present and parseable, restore the in-memory user;
any error is caught and logged; `finally` sets `loading` to false. -/
def loadUser (env : StorageEnv) (s : HookState) : HookState :=
  if env.getFails USER_STORAGE_KEY then { s with loading := false }
  else
    match getItem s.storage USER_STORAGE_KEY with
    | some v =>
      match parseStoredUser v with
      | some u => { s with user := some u, loading := false }
      | none => { s with loading := false }
    | none => { s with loading := false }

/-- A row of the Convex `users` table (`src/convex/schema.ts`), together
with its document id. -/
structure UserRow where
  id : String
  tokenIdentifier : String
  email : String
  role : UserRole
deriving DecidableEq

/-- The Convex `users` table in insertion order. -/
abbrev DB : Type := List UserRow

/-- `ctx.db.query("users").withIndex("by_email", …).first()`. -/
def findByEmail (db : DB) (email : String) : Option UserRow :=
  db.find? (fun u => u.email == email)

/-- `ctx.db.query("users").withIndex("by_token", …).first()`. -/
def findByToken (db : DB) (tokenIdentifier : String) : Option UserRow :=
  db.find? (fun u => u.tokenIdentifier == tokenIdentifier)

/-- The document id generated by `ctx.db.insert` for the next insertion. -/
def freshId (db : DB) : String :=
  "users-" ++ toString db.length

/-- `signUp` of `src/convex/auth.ts` (lines 40–59): reject when a user with
the email already exists, otherwise insert a row with role `"user"` and
return its id. -/
def signUp (db : DB) (email password tokenIdentifier : String) :
    Except String (DB × String) :=
  match findByEmail db email with
  | some _ => .error "User with this email already exists"
  | none =>
    let userId := freshId db
    .ok (db ++ [{ id := userId, tokenIdentifier := tokenIdentifier,
                  email := email, role := UserRole.user }], userId)

/-- The profile returned by `signIn` of `src/convex/auth.ts`. -/
structure SignInProfile where
  id : String
  email : String
  role : UserRole
  tokenIdentifier : String
deriving DecidableEq

/-- `signIn` of `src/convex/auth.ts` (lines 82–106): look the user up by
email; throw "Invalid email or password" when absent; otherwise return the
profile.  The `password` argument is accepted but never compared against
anything. -/
def signIn (db : DB) (email password : String) : Except String SignInProfile :=
  match findByEmail db email with
  | none => .error "Invalid email or password"
  | some u => .ok { id := u.id, email := u.email, role := u.role,
                    tokenIdentifier := u.tokenIdentifier }

/-- The profile returned by `getCurrentUser` of `src/convex/auth.ts`. -/
structure CurrentUserProfile where
  id : String
  email : String
  role : UserRole
deriving DecidableEq

/-- `getCurrentUser` of `src/convex/auth.ts` (lines 125–145): look the user
up by token identifier; `null` when absent. -/
def getCurrentUser (db : DB) (tokenIdentifier : String) : Option CurrentUserProfile :=
  match findByToken db tokenIdentifier with
  | some u => some { id := u.id, email := u.email, role := u.role }
  | none => none

/-- Result of one `handleAuth` press in `src/app/(auth)/index.tsx`: the
database afterwards, the client auth state afterwards, and the message of the
alert shown on failure (if any). -/
structure HandleAuthOutcome where
  db : DB
  auth : HookState
  alertMessage : Option String

/-- `handleAuth` of `src/app/(auth)/index.tsx` (lines 26–58): empty email or
password is rejected up front; in sign-up mode call the `signUp` mutation and
on success `setUser` the freshly built `AuthUser` (role `"user"`); in sign-in
mode call `signIn` and `setUser` the returned profile; a thrown mutation
error is caught, shown as an alert, and leaves client state untouched. -/
def handleAuth (env : StorageEnv) (db : DB) (s : HookState) (isSignUp : Bool)
    (email password tokenIdentifier : String) : HandleAuthOutcome :=
  if email = "" || password = "" then
    { db := db, auth := s, alertMessage := some "Please fill in all fields" }
  else if isSignUp then
    match signUp db email password tokenIdentifier with
    | .error msg => { db := db, auth := s, alertMessage := some msg }
    | .ok (db2, userId) =>
      { db := db2
        auth := setUser env s { id := userId, email := email, role := UserRole.user,
                                tokenIdentifier := tokenIdentifier }
        alertMessage := none }
  else
    match signIn db email password with
    | .error msg => { db := db, auth := s, alertMessage := some msg }
    | .ok p =>
      { db := db
        auth := setUser env s { id := p.id, email := p.email, role := p.role,
                                tokenIdentifier := p.tokenIdentifier }
        alertMessage := none }

end Convex

/-- A storage environment in which no AsyncStorage operation throws. -/
def reliableEnv : Convex.StorageEnv where
  setFails := fun _ => false
  removeFails := fun _ => false
  getFails := fun _ => false

/-- A storage environment in which every AsyncStorage write and removal
throws (reads succeed). -/
def failingEnv : Convex.StorageEnv where
  setFails := fun _ => true
  removeFails := fun _ => true
  getFails := fun _ => false

/-- A sample Convex `AuthUser`. -/
def sampleUser : Convex.AuthUser where
  id := "users-0"
  email := "alice@example.com"
  role := Convex.UserRole.user
  tokenIdentifier := "tok-1"

/-- A sample signed-out hook state over empty storage. -/
def emptyState : Convex.HookState where
  user := none
  loading := false
  storage := fun _ => none

/-- A sample Convex database containing one registered user. -/
def sampleDB : Convex.DB :=
  [{ id := "users-0", tokenIdentifier := "tok-1",
     email := "alice@example.com", role := Convex.UserRole.user }]


/-- C1: Guard exclusivity — for every user value with `loading = false`,
exactly one of the three guards of `AppLayout` evaluates to true, exactly one
of the admin / standard-user / auth screens is exposed, and the About screen
is exposed in every such state. -/
theorem guard_exclusivity (user : Option Layout.LayoutUser) :
    ((Layout.guardAdmin user).toNat + (Layout.guardUser user).toNat
      + (Layout.guardAuth user).toNat = 1) ∧
    ((decide (Layout.Screen.adminScreen ∈ Layout.AppLayout user false)).toNat
      + (decide (Layout.Screen.appIndex ∈ Layout.AppLayout user false)).toNat
      + (decide (Layout.Screen.authIndex ∈ Layout.AppLayout user false)).toNat = 1) ∧
    Layout.Screen.about ∈ Layout.AppLayout user false := by
  match user with
  | none =>
      simp [Layout.guardAdmin, Layout.guardUser, Layout.guardAuth, Layout.AppLayout]
  | some u =>
      cases hb : (u.role == "admin") <;>
        simp [Layout.guardAdmin, Layout.guardUser, Layout.guardAuth, Layout.AppLayout,
          bne, hb]

/-- C2: Loading gate — while `loading` is true, `AppLayout` renders only the
`ScreenSuspense` loading indicator, regardless of the user value. -/
theorem loading_gate (user : Option Layout.LayoutUser) :
    Layout.AppLayout user true = [Layout.Screen.suspense] := by
  simp [Layout.AppLayout]

/-- C3: Role-lookup failure defaults to `"user"` — when the Role Store read
fails (`err`) or the role record does not exist (`missing` / no row), both
`getUserRole` variants return `"user"` (they are total functions, so they
never throw to their caller nor leave the role undefined), and the `AuthUser`
built by `fetchUserWithRole` for a valid session after a failed lookup has
`role = "user"`. -/
theorem role_lookup_failure_defaults
    (fbRes : Firebase.DocResult)
    (store : String → Supabase.SingleResult) (su : Supabase.SupabaseUser)
    (hfb : fbRes = Firebase.DocResult.err ∨ fbRes = Firebase.DocResult.missing)
    (hsb : store su.id = Supabase.SingleResult.err) :
    Firebase.getUserRole fbRes = "user" ∧
    Supabase.getUserRole (store su.id) = "user" ∧
    (Supabase.fetchUserWithRole store su).role = "user" := by
  refine ⟨?_, ?_, ?_⟩
  · rcases hfb with h | h <;> simp [h, Firebase.getUserRole]
  · simp [hsb, Supabase.getUserRole]
  · simp [Supabase.fetchUserWithRole, hsb, Supabase.getUserRole]

/-- Witness for C3 at a concrete failing store. -/
theorem role_lookup_failure_defaults_witness :
    Firebase.getUserRole Firebase.DocResult.err = "user" ∧
    Supabase.getUserRole ((fun _ => Supabase.SingleResult.err) "uid1") = "user" ∧
    (Supabase.fetchUserWithRole (fun _ => Supabase.SingleResult.err)
      ⟨"uid1", none⟩).role = "user" :=
  role_lookup_failure_defaults Firebase.DocResult.err
    (fun _ => Supabase.SingleResult.err) ⟨"uid1", none⟩ (Or.inl rfl) rfl

/-- C5: Idempotence of the session-change handlers — with the Role Store held
fixed, running the Supabase `onAuthStateChange` callback (or the Firebase
`onAuthStateChanged` callback) twice in a row with the same session value
leaves exactly the state produced by the first run: the second invocation
changes no observable coordinator state. -/
theorem onSessionChange_idempotent
    (store : String → Supabase.SingleResult) (session : Option Supabase.Session)
    (prev : Option Supabase.User)
    (fbStore : String → Firebase.DocResult)
    (firebaseUser : Option Firebase.FirebaseUser) (fbPrev : Firebase.HookState) :
    Supabase.onSessionChange store session (Supabase.onSessionChange store session prev)
      = Supabase.onSessionChange store session prev ∧
    Firebase.onAuthStateChanged fbStore firebaseUser
        (Firebase.onAuthStateChanged fbStore firebaseUser fbPrev)
      = Firebase.onAuthStateChanged fbStore firebaseUser fbPrev :=
  ⟨rfl, rfl⟩

/-- Helper: `find?` skips a prefix list in which nothing matches. -/
theorem find?_append_left_none {α : Type} (p : α → Bool) (l1 l2 : List α)
    (h : l1.find? p = none) : (l1 ++ l2).find? p = l2.find? p := by
  induction l1 with
  | nil => simp
  | cons a t ih =>
    have hpa : ¬ p a = true := by
      intro hpa
      rw [List.find?_cons_of_pos _ hpa] at h
      exact absurd h (by simp)
    rw [List.find?_cons_of_neg _ hpa] at h
    rw [List.cons_append, List.find?_cons_of_neg _ hpa]
    exact ih h

/-- C4: Sign-out postcondition — for every starting hook state, when the two
storage removals succeed, `clearUser` leaves the in-memory user absent and
the persisted storage holding neither the `"@convex_user"` nor the
`"@convex_token"` entry. -/
theorem clearUser_postcondition (env : Convex.StorageEnv) (s : Convex.HookState)
    (h1 : env.removeFails Convex.USER_STORAGE_KEY = false)
    (h2 : env.removeFails Convex.TOKEN_STORAGE_KEY = false) :
    (Convex.clearUser env s).user = none ∧
    Convex.getItem (Convex.clearUser env s).storage Convex.USER_STORAGE_KEY = none ∧
    Convex.getItem (Convex.clearUser env s).storage Convex.TOKEN_STORAGE_KEY = none := by
  have hne : Convex.USER_STORAGE_KEY ≠ Convex.TOKEN_STORAGE_KEY := by decide
  refine ⟨?_, ?_, ?_⟩ <;>
    simp [Convex.clearUser, h1, h2, Convex.getItem, Convex.removeItem, hne]

/-- Witness for C4: a signed-in state whose storage holds both entries. -/
theorem clearUser_postcondition_witness :
    (Convex.clearUser reliableEnv
      { user := some sampleUser, loading := false,
        storage := Convex.setItem
          (Convex.setItem (fun _ => none) Convex.USER_STORAGE_KEY
            (Convex.StValue.vUser sampleUser))
          Convex.TOKEN_STORAGE_KEY (Convex.StValue.vStr "tok-1") }).user = none ∧
    Convex.getItem
      (Convex.clearUser reliableEnv
        { user := some sampleUser, loading := false,
          storage := Convex.setItem
            (Convex.setItem (fun _ => none) Convex.USER_STORAGE_KEY
              (Convex.StValue.vUser sampleUser))
            Convex.TOKEN_STORAGE_KEY (Convex.StValue.vStr "tok-1") }).storage
      Convex.USER_STORAGE_KEY = none ∧
    Convex.getItem
      (Convex.clearUser reliableEnv
        { user := some sampleUser, loading := false,
          storage := Convex.setItem
            (Convex.setItem (fun _ => none) Convex.USER_STORAGE_KEY
              (Convex.StValue.vUser sampleUser))
            Convex.TOKEN_STORAGE_KEY (Convex.StValue.vStr "tok-1") }).storage
      Convex.TOKEN_STORAGE_KEY = none :=
  clearUser_postcondition reliableEnv _ rfl rfl

/-- C6: Persistence round-trip — for every `AuthUser` `u`, after `setUser u`
with both storage writes succeeding, a fresh process start that restores
state via `loadUser` from the persisted storage (with the read succeeding and
storage untouched in between) reconstructs the in-memory user equal to `u`
field-for-field. -/
theorem setUser_loadUser_roundtrip (env env2 : Convex.StorageEnv)
    (s : Convex.HookState) (u : Convex.AuthUser)
    (h1 : env.setFails Convex.USER_STORAGE_KEY = false)
    (h2 : env.setFails Convex.TOKEN_STORAGE_KEY = false)
    (h3 : env2.getFails Convex.USER_STORAGE_KEY = false) :
    (Convex.loadUser env2
      { user := none, loading := true,
        storage := (Convex.setUser env s u).storage }).user = some u := by
  have hne : Convex.USER_STORAGE_KEY ≠ Convex.TOKEN_STORAGE_KEY := by decide
  simp [Convex.setUser, h1, h2, Convex.loadUser, h3, Convex.getItem,
    Convex.setItem, hne, Convex.parseStoredUser]

/-- Witness for C6 at a concrete user and reliable storage. -/
theorem setUser_loadUser_roundtrip_witness :
    (Convex.loadUser reliableEnv
      { user := none, loading := true,
        storage := (Convex.setUser reliableEnv emptyState sampleUser).storage }).user
      = some sampleUser :=
  setUser_loadUser_roundtrip reliableEnv reliableEnv emptyState sampleUser rfl rfl rfl

/-- C9 counterexample: with a storage environment whose writes/removals
throw, `setUser` does NOT update the in-memory user to the new value, and
`clearUser` does NOT clear it — refuting the claim that the in-memory state
still updates when the storage operation fails. -/
theorem setUser_storage_failure_counterexample :
    (Convex.setUser failingEnv emptyState sampleUser).user ≠ some sampleUser ∧
    (Convex.clearUser failingEnv
      { user := some sampleUser, loading := false,
        storage := fun _ => none }).user ≠ none := by
  constructor
  · intro h
    exact absurd h (by decide)
  · intro h
    exact absurd h (by decide)

/-- C9 amended: if a storage write in `setUser` (or a removal in `clearUser`)
fails, the error is caught and only logged — the caller sees no exception —
but the in-memory user state is left unchanged rather than updated. -/
theorem storage_failure_leaves_user_unchanged (env : Convex.StorageEnv)
    (s : Convex.HookState) (u : Convex.AuthUser)
    (hs : env.setFails Convex.USER_STORAGE_KEY = true ∨
      env.setFails Convex.TOKEN_STORAGE_KEY = true)
    (hr : env.removeFails Convex.USER_STORAGE_KEY = true ∨
      env.removeFails Convex.TOKEN_STORAGE_KEY = true) :
    (Convex.setUser env s u).user = s.user ∧
    (Convex.clearUser env s).user = s.user := by
  constructor
  · rcases hs with h | h
    · simp [Convex.setUser, h]
    · by_cases h0 : env.setFails Convex.USER_STORAGE_KEY = true <;>
        simp [Convex.setUser, h0, h]
  · rcases hr with h | h
    · simp [Convex.clearUser, h]
    · by_cases h0 : env.removeFails Convex.USER_STORAGE_KEY = true <;>
        simp [Convex.clearUser, h0, h]

/-- Witness for the amended C9 at a concrete failing environment. -/
theorem storage_failure_leaves_user_unchanged_witness :
    (Convex.setUser failingEnv emptyState sampleUser).user = emptyState.user ∧
    (Convex.clearUser failingEnv emptyState).user = emptyState.user :=
  storage_failure_leaves_user_unchanged failingEnv emptyState sampleUser
    (Or.inl rfl) (Or.inl rfl)

/-- C7: Duplicate sign-up rejected atomically — whenever a user with the
given (non-empty) email already exists, the `signUp` mutation throws
"User with this email already exists", and the client `handleAuth` flow
leaves the database unchanged (no row inserted), leaves the in-memory and
persisted auth state exactly as before (no `setUser` call), and surfaces the
duplicate-account message as the alert. -/
theorem duplicate_signup_rejected (env : Convex.StorageEnv) (db : Convex.DB)
    (s : Convex.HookState) (email password tokenIdentifier : String)
    (row : Convex.UserRow)
    (hEmail : email ≠ "") (hPw : password ≠ "")
    (hDup : Convex.findByEmail db email = some row) :
    Convex.signUp db email password tokenIdentifier
      = Except.error "User with this email already exists" ∧
    (Convex.handleAuth env db s true email password tokenIdentifier).db = db ∧
    (Convex.handleAuth env db s true email password tokenIdentifier).auth = s ∧
    (Convex.handleAuth env db s true email password tokenIdentifier).alertMessage
      = some "User with this email already exists" := by
  have h1 : Convex.signUp db email password tokenIdentifier
      = Except.error "User with this email already exists" := by
    simp [Convex.signUp, hDup]
  refine ⟨h1, ?_, ?_, ?_⟩ <;> simp [Convex.handleAuth, hEmail, hPw, h1]

/-- Witness for C7: signing up again with the already-registered email. -/
theorem duplicate_signup_rejected_witness :
    Convex.signUp sampleDB "alice@example.com" "pw2" "tok-2"
      = Except.error "User with this email already exists" ∧
    (Convex.handleAuth reliableEnv sampleDB emptyState true
      "alice@example.com" "pw2" "tok-2").db = sampleDB ∧
    (Convex.handleAuth reliableEnv sampleDB emptyState true
      "alice@example.com" "pw2" "tok-2").auth = emptyState ∧
    (Convex.handleAuth reliableEnv sampleDB emptyState true
      "alice@example.com" "pw2" "tok-2").alertMessage
      = some "User with this email already exists" :=
  duplicate_signup_rejected reliableEnv sampleDB emptyState
    "alice@example.com" "pw2" "tok-2"
    { id := "users-0", tokenIdentifier := "tok-1",
      email := "alice@example.com", role := Convex.UserRole.user }
    (by decide) (by decide) rfl

/-- C8: Default role at account creation — for an email not yet registered
(and a token identifier not already present), `signUp` succeeds, the inserted
record has role `"user"`, and an immediately following `getCurrentUser`
lookup for the new identifier returns role `"user"`.  Likewise, in the
Firebase variant, `createUserProfile` with the default role followed by a
role lookup for the new user id yields `"user"`. -/
theorem default_role_after_signup (db : Convex.DB)
    (email password tokenIdentifier : String)
    (fs : Firebase.Firestore) (uid em : String)
    (hEmail : Convex.findByEmail db email = none)
    (hTok : Convex.findByToken db tokenIdentifier = none) :
    (∃ db2 userId,
      Convex.signUp db email password tokenIdentifier = Except.ok (db2, userId) ∧
      Convex.getCurrentUser db2 tokenIdentifier
        = some { id := userId, email := email, role := Convex.UserRole.user }) ∧
    Firebase.getUserRole
      (Firebase.fsGetDoc (Firebase.createUserProfile fs uid em) uid) = "user" := by
  constructor
  · have hok :
        Convex.signUp db email password tokenIdentifier
          = Except.ok
              (db ++ [{ id := Convex.freshId db,
                        tokenIdentifier := tokenIdentifier,
                        email := email,
                        role := Convex.UserRole.user }],
               Convex.freshId db) := by
      simp [Convex.signUp, hEmail]
    refine ⟨_, _, hok, ?_⟩
    unfold Convex.findByToken at hTok
    unfold Convex.getCurrentUser Convex.findByToken
    rw [find?_append_left_none _ _ _ hTok]
    simp [List.find?]
  · simp [Firebase.fsGetDoc, Firebase.createUserProfile, Firebase.getUserRole]

/-- Witness for C8: signing up against the empty database. -/
theorem default_role_after_signup_witness :
    (∃ db2 userId,
      Convex.signUp [] "bob@example.com" "pw" "tok-9" = Except.ok (db2, userId) ∧
      Convex.getCurrentUser db2 "tok-9"
        = some { id := userId, email := "bob@example.com",
                 role := Convex.UserRole.user }) ∧
    Firebase.getUserRole
      (Firebase.fsGetDoc
        (Firebase.createUserProfile (fun _ => none) "u1" "bob@example.com")
        "u1") = "user" :=
  default_role_after_signup [] "bob@example.com" "pw" "tok-9"
    (fun _ => none) "u1" "bob@example.com" rfl rfl

/-- C10: `signIn` is independent of the password — for every database and
email, any two passwords produce identical results; the result is exactly the
stored profile (id, email, role, tokenIdentifier) when a user with that email
exists, and the "Invalid email or password" error only when none does.  The
supplied password is never compared against any stored value. -/
theorem signIn_password_independent (db : Convex.DB) (email p1 p2 : String) :
    Convex.signIn db email p1 = Convex.signIn db email p2 ∧
    Convex.signIn db email p1 =
      (match Convex.findByEmail db email with
       | none => Except.error "Invalid email or password"
       | some u => Except.ok { id := u.id, email := u.email, role := u.role,
                               tokenIdentifier := u.tokenIdentifier }) :=
  ⟨rfl, rfl⟩
